import Mathlib

/-!
# ACI provider: imported contract (`vzCPIf`) resource and firmware group data source

A shallow embedding of `aci/resource_aci_vzcpif.go` and
`aci/data_source_aci_firmwarefwgrp.go`.

* Go strings are Lean `String`s, `fmt.Sprintf` with `%s` is concatenation.
* A Go `error` result is an `Option String` (`none` is `nil`), a Go
  `(value, error)` result is an `Except String value`.
* The `*schema.ResourceData` that the Go functions mutate through a pointer is
  passed in and returned explicitly.
* The remote API client is a record of state transformers over an arbitrary
  remote state `σ`; every call made through it is appended to a trace, so that
  the order and the arguments of the transport calls can be stated.
-/

namespace Aci

/-! ## Typed attribute bundle (`models.ImportedContract`) -/

/-- The kind-specific part of the bundle, `models.ImportedContractAttributes`. -/
structure ImportedContractAttributes where
  Name : String
  Annotation : String
  NameAlias : String
deriving DecidableEq, Repr

/-- The bundle `models.ImportedContract`: the base attributes of every managed
object followed by the kind-specific ones. -/
structure ImportedContract where
  DistinguishedName : String
  Description : String
  Status : String
  ClassName : String
  Rn : String
  Attributes : ImportedContractAttributes
deriving DecidableEq, Repr

/-- The class name of an imported contract, also the kind passed to `DeleteByDn`. -/
def VzcpifClassName : String := "vzCPIf"

/-- The zero value `models.ImportedContractAttributes{}`. -/
def ImportedContractAttributes.zero : ImportedContractAttributes :=
  { Name := "", Annotation := "", NameAlias := "" }

/-- The constructor `models.NewImportedContract(rn, parentDn, description, attr)` of
the client library: the identity is `parentDn + "/" + rn`, a pure function of
parent and relative name. -/
def NewImportedContract (vzCPIfRn parentDn description : String)
    (vzCPIfattr : ImportedContractAttributes) : ImportedContract :=
  { DistinguishedName := parentDn ++ "/" ++ vzCPIfRn
    Description := description
    Status := "created, modified"
    ClassName := VzcpifClassName
    Rn := vzCPIfRn
    Attributes := vzCPIfattr }

/-- The helper `A(data, key, value)` of the client library, on a Go
`map[string]string`: a non-empty value is stored under the key, and the value
`"{}"` (how the decoder renders an attribute the answer lacks) is stored as `""`. -/
def A (data : String → Option String) (key value : String) : String → Option String :=
  let data := if value ≠ "" then (fun k => if k = key then some value else data k) else data
  if value = "{}" then (fun k => if k = key then some "" else data k) else data

/-- Reading a Go `map[string]string` at a key: an absent key yields `""`. -/
def mapIndex (data : String → Option String) (key : String) : String :=
  (data key).getD ""

/-- The map `vzCPIf.ToMap()` of the client library: the kind-specific attributes
added with `A`. The entries of the base attributes are left out: the provider
reads the map at `name`, `annotation` and `nameAlias` only, which are not keys
of theirs. -/
def ImportedContract.ToMap (vzCPIf : ImportedContract) : String → Option String :=
  let vzCPIfMap : String → Option String := fun _ => none
  let vzCPIfMap := A vzCPIfMap "name" vzCPIf.Attributes.Name
  let vzCPIfMap := A vzCPIfMap "annotation" vzCPIf.Attributes.Annotation
  let vzCPIfMap := A vzCPIfMap "nameAlias" vzCPIf.Attributes.NameAlias
  vzCPIfMap

/-! ## Declared state (`schema.ResourceData`) -/

/-- The declared state of one resource instance: its identity, the current
(merged) value of every attribute, the prior value of every attribute (the old
side of `GetChange`) and the partial-state bookkeeping. An attribute that is not
set is `none`. -/
structure ResourceData where
  id : String
  attrs : String → Option String
  prior : String → Option String
  partialMode : Bool
  partialKeys : List String

/-- `d.Id()`. -/
def ResourceData.Id (d : ResourceData) : String := d.id

/-- `d.SetId(v)`. -/
def ResourceData.SetId (d : ResourceData) (v : String) : ResourceData :=
  { d with id := v }

/-- `d.Get(key).(string)`: the value, or the zero value `""` when the key is not set. -/
def ResourceData.Get (d : ResourceData) (key : String) : String :=
  (d.attrs key).getD ""

/-- `d.GetOk(key)`: the value together with whether the key is set to a
non-zero value. -/
def ResourceData.GetOk (d : ResourceData) (key : String) : String × Bool :=
  match d.attrs key with
  | some v => (v, decide (v ≠ ""))
  | none => ("", false)

/-- `d.Set(key, value)`; a `nil` value is `none`. -/
def ResourceData.Set (d : ResourceData) (key : String) (value : Option String) :
    ResourceData :=
  { d with attrs := fun k => if k = key then value else d.attrs k }

/-- `d.GetChange(key)`: the old and the new value. -/
def ResourceData.GetChange (d : ResourceData) (key : String) : String × String :=
  ((d.prior key).getD "", (d.attrs key).getD "")

/-- `d.HasChange(key)`: whether old and new value differ. -/
def ResourceData.HasChange (d : ResourceData) (key : String) : Bool :=
  decide ((d.GetChange key).1 ≠ (d.GetChange key).2)

/-- `d.Partial(flag)`. -/
def ResourceData.Partial (d : ResourceData) (flag : Bool) : ResourceData :=
  { d with partialMode := flag }

/-- `d.SetPartial(key)`: records the key while partial mode is on. -/
def ResourceData.SetPartial (d : ResourceData) (key : String) : ResourceData :=
  if d.partialMode then { d with partialKeys := d.partialKeys ++ [key] } else d

/-- How the schema declares one attribute. -/
structure Schema where
  Required : Bool
  Optional : Bool
  Computed : Bool
deriving DecidableEq, Repr

/-- The schema entries of `resourceAciImportedContract` (lines 26-52). The entries
that `AppendBaseAttrSchema` adds are not among the sources and are left out. -/
def resourceAciImportedContractSchema (key : String) : Option Schema :=
  if key = "tenant_dn" then some { Required := true, Optional := false, Computed := false }
  else if key = "name" then some { Required := true, Optional := false, Computed := false }
  else if key = "annotation" then
    some { Required := false, Optional := true, Computed := true }
  else if key = "name_alias" then
    some { Required := false, Optional := true, Computed := true }
  else if key = "relation_vz_rs_if" then
    some { Required := false, Optional := true, Computed := false }
  else none

/-- The declared state the framework hands to Create or Update, for the attributes
of the given schema: identity and prior values come from the stored state; the
current value of an attribute is the one the caller configured, or, for a
`Computed` attribute the caller did not configure, the stored one. -/
def plannedResourceData (schema : String → Option Schema) (state : ResourceData)
    (config : String → Option String) : ResourceData :=
  { id := state.id
    attrs := fun k =>
      match config k with
      | some v => some v
      | none =>
        match schema k with
        | some entry => if entry.Computed then state.attrs k else none
        | none => none
    prior := state.attrs
    partialMode := false
    partialKeys := [] }

/-! ## Transport -/

/-- One call issued to the remote API client. -/
inductive Call where
  | Get (dn : String)
  | Save (obj : ImportedContract)
  | DeleteByDn (dn : String) (kind : String)
  | CreateRelationvzRsIf (dn : String) (target : String)
  | DeleteRelationvzRsIf (dn : String)
  | ReadRelationvzRsIf (dn : String)
deriving DecidableEq, Repr

/-- The remote API client `*client.Client`, an external collaborator: each method
maps the remote state to a result and a new remote state. `κ` is the type of the
response containers. -/
structure Client (σ κ : Type) where
  Get : String → σ → Except String κ × σ
  Save : ImportedContract → σ → Option String × σ
  DeleteByDn : String → String → σ → Option String × σ
  CreateRelationvzRsIfFromImportedContract : String → String → σ → Option String × σ
  DeleteRelationvzRsIfFromImportedContract : String → σ → Option String × σ
  ReadRelationvzRsIfFromImportedContract : String → σ → Except String (Option String) × σ

/-- The remote state together with the calls issued so far, oldest first. -/
structure World (σ : Type) where
  st : σ
  trace : List Call

/-- What an entry point hands back: the returned `error`, the declared state as
the entry point left it, and the world after its calls. -/
structure Outcome (σ : Type) where
  err : Option String
  d : ResourceData
  world : World σ

section Calls

variable {σ κ : Type} (client : Client σ κ)

/-- `client.Get(dn)`, recorded. -/
def callGet (dn : String) (w : World σ) : Except String κ × World σ :=
  ((client.Get dn w.st).1, ⟨(client.Get dn w.st).2, w.trace ++ [Call.Get dn]⟩)

/-- `client.Save(obj)`, recorded. -/
def callSave (obj : ImportedContract) (w : World σ) : Option String × World σ :=
  ((client.Save obj w.st).1, ⟨(client.Save obj w.st).2, w.trace ++ [Call.Save obj]⟩)

/-- `client.DeleteByDn(dn, kind)`, recorded. -/
def callDeleteByDn (dn kind : String) (w : World σ) : Option String × World σ :=
  ((client.DeleteByDn dn kind w.st).1,
    ⟨(client.DeleteByDn dn kind w.st).2, w.trace ++ [Call.DeleteByDn dn kind]⟩)

/-- `client.CreateRelationvzRsIfFromImportedContract(dn, target)`, recorded. -/
def callCreateRelationvzRsIf (dn target : String) (w : World σ) :
    Option String × World σ :=
  ((client.CreateRelationvzRsIfFromImportedContract dn target w.st).1,
    ⟨(client.CreateRelationvzRsIfFromImportedContract dn target w.st).2,
      w.trace ++ [Call.CreateRelationvzRsIf dn target]⟩)

/-- `client.DeleteRelationvzRsIfFromImportedContract(dn)`, recorded. -/
def callDeleteRelationvzRsIf (dn : String) (w : World σ) : Option String × World σ :=
  ((client.DeleteRelationvzRsIfFromImportedContract dn w.st).1,
    ⟨(client.DeleteRelationvzRsIfFromImportedContract dn w.st).2,
      w.trace ++ [Call.DeleteRelationvzRsIf dn]⟩)

/-- `client.ReadRelationvzRsIfFromImportedContract(dn)`, recorded. -/
def callReadRelationvzRsIf (dn : String) (w : World σ) :
    Except String (Option String) × World σ :=
  ((client.ReadRelationvzRsIfFromImportedContract dn w.st).1,
    ⟨(client.ReadRelationvzRsIfFromImportedContract dn w.st).2,
      w.trace ++ [Call.ReadRelationvzRsIf dn]⟩)

end Calls

/-! ## Identity helper -/

/-- The characters of a DN up to, and without, its last `/`; nothing when there is
no `/`. -/
def stripLastSegment (dn : List Char) : List Char :=
  ((dn.reverse.dropWhile (fun ch => ch != '/')).drop 1).reverse

/-- Modelled from the spec: `GetParentDn` of `aci/utils.go`, which is not among the
sources. The spec's `ParentOf(dn)` "strips the last path segment" and returns
the empty DN when `dn` has no separator. -/
def GetParentDn (childDn : String) : String :=
  String.mk (stripLastSegment childDn.data)

/-! ## `aci/resource_aci_vzcpif.go` -/

section ImportedContractResource

variable {σ κ : Type} (client : Client σ κ)
  (ImportedContractFromContainer : κ → ImportedContract)

/-- `getRemoteImportedContract(client, dn)`. -/
def getRemoteImportedContract (dn : String) (w : World σ) :
    Except String ImportedContract × World σ :=
  let r := callGet client dn w
  match r.1 with
  | .error err => (.error err, r.2)
  | .ok vzCPIfCont =>
    let vzCPIf := ImportedContractFromContainer vzCPIfCont
    if vzCPIf.DistinguishedName = "" then
      (.error ("ImportedContract " ++ vzCPIf.DistinguishedName ++ " not found"), r.2)
    else
      (.ok vzCPIf, r.2)

/-- `setImportedContractAttributes(vzCPIf, d)`. -/
def setImportedContractAttributes (vzCPIf : ImportedContract) (d : ResourceData) :
    ResourceData :=
  let d := d.SetId vzCPIf.DistinguishedName
  let d := d.Set "description" (some vzCPIf.Description)
  let d := d.Set "tenant_dn" (some (GetParentDn vzCPIf.DistinguishedName))
  let vzCPIfMap := vzCPIf.ToMap
  let d := d.Set "name" (some (mapIndex vzCPIfMap "name"))
  let d := d.Set "annotation" (some (mapIndex vzCPIfMap "annotation"))
  let d := d.Set "name_alias" (some (mapIndex vzCPIfMap "nameAlias"))
  d

/-- `resourceAciImportedContractImport(d, m)`: the returned slice of declared
states, or the error. -/
def resourceAciImportedContractImport (d : ResourceData) (w : World σ) :
    Except String (List ResourceData) × World σ :=
  let dn := d.Id
  let r := getRemoteImportedContract client ImportedContractFromContainer dn w
  match r.1 with
  | .error err => (.error err, r.2)
  | .ok vzCPIf =>
    let schemaFilled := setImportedContractAttributes vzCPIf d
    (.ok [schemaFilled], r.2)

/-- `resourceAciImportedContractRead(d, m)`. -/
def resourceAciImportedContractRead (d : ResourceData) (w : World σ) : Outcome σ :=
  let dn := d.Id
  let r := getRemoteImportedContract client ImportedContractFromContainer dn w
  match r.1 with
  | .error _ => ⟨none, d.SetId "", r.2⟩
  | .ok vzCPIf =>
    let d := setImportedContractAttributes vzCPIf d
    let r2 := callReadRelationvzRsIf client dn r.2
    match r2.1 with
    | .error _ => ⟨none, d, r2.2⟩
    | .ok vzRsIfData => ⟨none, d.Set "relation_vz_rs_if" vzRsIfData, r2.2⟩

/-- Lines 105-118 and 152-165: the bundle that Create and Update build from the
declared state before saving it. -/
def declaredImportedContract (d : ResourceData) : ImportedContract :=
  let desc := d.Get "description"
  let name := d.Get "name"
  let TenantDn := d.Get "tenant_dn"
  let vzCPIfAttr := ImportedContractAttributes.zero
  let vzCPIfAttr :=
    if (d.GetOk "annotation").2 then
      { vzCPIfAttr with Annotation := (d.GetOk "annotation").1 }
    else vzCPIfAttr
  let vzCPIfAttr :=
    if (d.GetOk "name_alias").2 then
      { vzCPIfAttr with NameAlias := (d.GetOk "name_alias").1 }
    else vzCPIfAttr
  NewImportedContract ("cif-" ++ name) TenantDn desc vzCPIfAttr

/-- `resourceAciImportedContractCreate(d, m)`. -/
def resourceAciImportedContractCreate (d : ResourceData) (w : World σ) : Outcome σ :=
  let vzCPIf := declaredImportedContract d
  let r := callSave client vzCPIf w
  match r.1 with
  | some err => ⟨some err, d, r.2⟩
  | none =>
    let d := ((d.Partial true).SetPartial "name").Partial false
    if (d.GetOk "relation_vz_rs_if").2 then
      let relationParam := (d.GetOk "relation_vz_rs_if").1
      let r2 := callCreateRelationvzRsIf client vzCPIf.DistinguishedName relationParam r.2
      match r2.1 with
      | some err => ⟨some err, d, r2.2⟩
      | none =>
        let d := ((d.Partial true).SetPartial "relation_vz_rs_if").Partial false
        let d := d.SetId vzCPIf.DistinguishedName
        resourceAciImportedContractRead client ImportedContractFromContainer d r2.2
    else
      let d := d.SetId vzCPIf.DistinguishedName
      resourceAciImportedContractRead client ImportedContractFromContainer d r.2

/-- `resourceAciImportedContractUpdate(d, m)`. -/
def resourceAciImportedContractUpdate (d : ResourceData) (w : World σ) : Outcome σ :=
  let vzCPIf := { declaredImportedContract d with Status := "modified" }
  let r := callSave client vzCPIf w
  match r.1 with
  | some err => ⟨some err, d, r.2⟩
  | none =>
    let d := ((d.Partial true).SetPartial "name").Partial false
    if d.HasChange "relation_vz_rs_if" then
      let newRelParam := (d.GetChange "relation_vz_rs_if").2
      let r2 := callDeleteRelationvzRsIf client vzCPIf.DistinguishedName r.2
      match r2.1 with
      | some err => ⟨some err, d, r2.2⟩
      | none =>
        let r3 := callCreateRelationvzRsIf client vzCPIf.DistinguishedName newRelParam r2.2
        match r3.1 with
        | some err => ⟨some err, d, r3.2⟩
        | none =>
          let d := ((d.Partial true).SetPartial "relation_vz_rs_if").Partial false
          let d := d.SetId vzCPIf.DistinguishedName
          resourceAciImportedContractRead client ImportedContractFromContainer d r3.2
    else
      let d := d.SetId vzCPIf.DistinguishedName
      resourceAciImportedContractRead client ImportedContractFromContainer d r.2

/-- `resourceAciImportedContractDelete(d, m)`. -/
def resourceAciImportedContractDelete (d : ResourceData) (w : World σ) : Outcome σ :=
  let dn := d.Id
  let r := callDeleteByDn client dn "vzCPIf" w
  match r.1 with
  | some err => ⟨some err, d, r.2⟩
  | none => ⟨none, d.SetId "", r.2⟩

end ImportedContractResource

/-! ## `aci/data_source_aci_firmwarefwgrp.go` -/

section FirmwareGroupDataSource

variable {σ κ φ : Type} (client : Client σ κ)
  (getRemoteFirmwareGroup : Client σ κ → String → World σ → Except String φ × World σ)
  (setFirmwareGroupAttributes : φ → ResourceData → ResourceData)

/-- `dataSourceAciFirmwareGroupRead(d, m)`. The helpers `getRemoteFirmwareGroup`
and `setFirmwareGroupAttributes` live in the firmware group resource file, which
is not among the sources; they are parameters here, `φ` being the type of the
firmware group bundle. -/
def dataSourceAciFirmwareGroupRead (d : ResourceData) (w : World σ) : Outcome σ :=
  let name := d.Get "name"
  let rn := "fabric/fwgrp-" ++ name
  let dn := "uni/" ++ rn
  let r := getRemoteFirmwareGroup client dn w
  match r.1 with
  | .error err => ⟨some err, d, r.2⟩
  | .ok firmwareFwGrp => ⟨none, setFirmwareGroupAttributes firmwareFwGrp d, r.2⟩

end FirmwareGroupDataSource

/-! ## A reference transport -/

/-- An in-memory remote: the object stored at each DN, the `vzRsIf` relation
target of each DN, and a schedule of injected failures (`faults n` is the error
with which the `n`-th call fails, if any); `step` counts the calls served. -/
structure Remote where
  objs : String → Option ImportedContract
  rels : String → Option String
  faults : Nat → Option String
  step : Nat

/-- The remote after serving one more call that changed nothing. -/
def Remote.tick (r : Remote) : Remote :=
  { r with step := r.step + 1 }

/-- Decoding of the reference transport's containers: an empty container decodes
to a bundle all of whose attributes are empty. -/
def simFromContainer : Option ImportedContract → ImportedContract
  | some obj => obj
  | none =>
    { DistinguishedName := "", Description := "", Status := "",
      ClassName := VzcpifClassName, Rn := "", Attributes := ImportedContractAttributes.zero }

/-- Modelled from the spec: the transport of the external-interfaces section, as
an in-memory store. A call that fails changes nothing; `Get` answers an unknown
DN with a well-formed but empty container; `Save` stores the object under its
DN; `DeleteByDn` removes the object; `CreateRelation` sets and `DeleteRelation`
removes (also when there is none) the relation target of a DN; `ReadRelation`
reports the relation target of a DN and, as the client library does for an empty
answer, fails when the DN has none. -/
def simClient : Client Remote (Option ImportedContract) where
  Get dn r :=
    match r.faults r.step with
    | some e => (.error e, r.tick)
    | none => (.ok (r.objs dn), r.tick)
  Save obj r :=
    match r.faults r.step with
    | some e => (some e, r.tick)
    | none =>
      (none, { r.tick with
        objs := fun k => if k = obj.DistinguishedName then some obj else r.objs k })
  DeleteByDn dn _ r :=
    match r.faults r.step with
    | some e => (some e, r.tick)
    | none => (none, { r.tick with objs := fun k => if k = dn then none else r.objs k })
  CreateRelationvzRsIfFromImportedContract dn target r :=
    match r.faults r.step with
    | some e => (some e, r.tick)
    | none =>
      (none, { r.tick with rels := fun k => if k = dn then some target else r.rels k })
  DeleteRelationvzRsIfFromImportedContract dn r :=
    match r.faults r.step with
    | some e => (some e, r.tick)
    | none => (none, { r.tick with rels := fun k => if k = dn then none else r.rels k })
  ReadRelationvzRsIfFromImportedContract dn r :=
    match r.faults r.step with
    | some e => (.error e, r.tick)
    | none =>
      match r.rels dn with
      | some target => (.ok (some target), r.tick)
      | none => (.error "Error retrieving Object: Object may not exists", r.tick)

/-- Whether a call is a primary `Save`. -/
def Call.isSave : Call → Bool
  | .Save _ => true
  | _ => false

/-- Whether a call is a `CreateRelation`. -/
def Call.isCreateRelation : Call → Bool
  | .CreateRelationvzRsIf _ _ => true
  | _ => false

/-- Whether a call is a `DeleteRelation`. -/
def Call.isDeleteRelation : Call → Bool
  | .DeleteRelationvzRsIf _ => true
  | _ => false

/-- Whether `needle` occurs in `hay` as a contiguous run (`strings.Contains`). -/
def containsSubstr (hay needle : String) : Bool :=
  hay.data.tails.any (fun t => needle.data.isPrefixOf t)

/-- A declared state with the given identity and attributes and no prior state. -/
def declared (id : String) (attrs : String → Option String) : ResourceData :=
  { id := id, attrs := attrs, prior := fun _ => none, partialMode := false, partialKeys := [] }

/-- A remote on which every call fails with "connection refused". -/
def unreachableRemote : Remote :=
  { objs := fun _ => none, rels := fun _ => none,
    faults := fun _ => some "connection refused", step := 0 }

/-- A remote that holds nothing and injects no failure. -/
def emptyRemote : Remote :=
  { objs := fun _ => none, rels := fun _ => none, faults := fun _ => none, step := 0 }

/-- A transport that acknowledges every write without keeping anything, so that a
lookup made right after a successful `Save` is answered with an empty container. -/
def ackOnlyClient : Client Unit Unit where
  Get _ s := (.ok (), s)
  Save _ s := (none, s)
  DeleteByDn _ _ s := (none, s)
  CreateRelationvzRsIfFromImportedContract _ _ s := (none, s)
  DeleteRelationvzRsIfFromImportedContract _ s := (none, s)
  ReadRelationvzRsIfFromImportedContract _ s := (.ok none, s)

/-- Decoding for `ackOnlyClient`: its containers are empty. -/
def ackOnlyFromContainer : Unit → ImportedContract :=
  fun _ => simFromContainer none

/-- The declared state `tenant_dn = uni/tn-a`, `name = web`, with no identity yet. -/
def declaredWeb : ResourceData :=
  declared "" (fun k => if k = "tenant_dn" then some "uni/tn-a"
    else if k = "name" then some "web" else none)

/-- The imported contract `uni/tn-a/cif-web` as the remote holds it. -/
def remoteWeb : ImportedContract :=
  { DistinguishedName := "uni/tn-a/cif-web", Description := "shared", Status := "",
    ClassName := "vzCPIf", Rn := "cif-web",
    Attributes := { Name := "web", Annotation := "orchestrator:terraform", NameAlias := "w" } }

/-- A remote holding `uni/tn-a/cif-web` with a relation to `uni/tn-b/brc-old`, on
which the call number `failAt` fails with "create failed" and no other call
fails. -/
def remoteWithRelation (failAt : Option Nat) : Remote :=
  { objs := fun k => if k = "uni/tn-a/cif-web" then some remoteWeb else none
    rels := fun k => if k = "uni/tn-a/cif-web" then some "uni/tn-b/brc-old" else none
    faults := fun n => if some n = failAt then some "create failed" else none
    step := 0 }

/-- The declared state of `uni/tn-a/cif-web` whose relation was `uni/tn-b/brc-old`
and is now declared as `uni/tn-b/brc-new`. -/
def declaredWebChanged : ResourceData :=
  { id := "uni/tn-a/cif-web"
    attrs := fun k => if k = "tenant_dn" then some "uni/tn-a"
      else if k = "name" then some "web"
      else if k = "relation_vz_rs_if" then some "uni/tn-b/brc-new" else none
    prior := fun k => if k = "relation_vz_rs_if" then some "uni/tn-b/brc-old" else none
    partialMode := false
    partialKeys := [] }

/-- The state stored for `uni/tn-a/cif-web` by a Read on a remote that holds it. -/
def storedWeb : ResourceData :=
  (resourceAciImportedContractRead simClient simFromContainer
    (declared "uni/tn-a/cif-web" (fun _ => none)) ⟨remoteWithRelation none, []⟩).d

/-- A configuration of `uni/tn-a/cif-web` that changes the description and sets
neither `annotation` nor `name_alias`. -/
def configWebPlain (key : String) : Option String :=
  if key = "tenant_dn" then some "uni/tn-a"
  else if key = "name" then some "web"
  else if key = "description" then some "changed"
  else if key = "relation_vz_rs_if" then some "uni/tn-b/brc-old"
  else none

/-! ## Theorems -/

/-- Reading the map that `A` extended, at the key it was given. -/
theorem mapIndex_A_self (data : String → Option String) (key value : String)
    (h : data key = none) :
    mapIndex (A data key value) key = if value = "{}" then "" else value := by
  unfold A mapIndex
  by_cases h1 : value = "{}"
  · simp [h1]
  · by_cases h2 : value = ""
    · simp [h1, h2, h]
    · simp [h1, h2]

/-- `A` leaves the other keys alone. -/
theorem A_other (data : String → Option String) (key value k : String) (h : k ≠ key) :
    A data key value k = data k := by
  unfold A
  by_cases h1 : value = "{}" <;> by_cases h2 : value = "" <;> simp [h1, h2, h]

/-- What the provider reads from `ToMap()` at `name`. -/
theorem ToMap_name (v : ImportedContract) :
    mapIndex v.ToMap "name"
      = if v.Attributes.Name = "{}" then "" else v.Attributes.Name := by
  have h := mapIndex_A_self (fun _ => none) "name" v.Attributes.Name rfl
  simpa [ImportedContract.ToMap, mapIndex,
    A_other _ "nameAlias" _ "name" (by decide), A_other _ "annotation" _ "name" (by decide)]
    using h

/-- What the provider reads from `ToMap()` at `annotation`. -/
theorem ToMap_annotation (v : ImportedContract) :
    mapIndex v.ToMap "annotation"
      = if v.Attributes.Annotation = "{}" then "" else v.Attributes.Annotation := by
  have h := mapIndex_A_self (A (fun _ => none) "name" v.Attributes.Name) "annotation"
    v.Attributes.Annotation (by rw [A_other _ "name" _ "annotation" (by decide)])
  simpa [ImportedContract.ToMap, mapIndex,
    A_other _ "nameAlias" _ "annotation" (by decide)] using h

/-- What the provider reads from `ToMap()` at `nameAlias`. -/
theorem ToMap_nameAlias (v : ImportedContract) :
    mapIndex v.ToMap "nameAlias"
      = if v.Attributes.NameAlias = "{}" then "" else v.Attributes.NameAlias := by
  have h := mapIndex_A_self
    (A (A (fun _ => none) "name" v.Attributes.Name) "annotation" v.Attributes.Annotation)
    "nameAlias" v.Attributes.NameAlias
    (by rw [A_other _ "annotation" _ "nameAlias" (by decide),
      A_other _ "name" _ "nameAlias" (by decide)])
  simpa [ImportedContract.ToMap, mapIndex] using h

@[simp] theorem ResourceData.GetOk_Partial (d : ResourceData) (b : Bool) (k : String) :
    (d.Partial b).GetOk k = d.GetOk k := rfl

@[simp] theorem ResourceData.GetOk_SetPartial (d : ResourceData) (x k : String) :
    (d.SetPartial x).GetOk k = d.GetOk k := by
  unfold ResourceData.SetPartial; split <;> rfl

@[simp] theorem ResourceData.GetChange_Partial (d : ResourceData) (b : Bool) (k : String) :
    (d.Partial b).GetChange k = d.GetChange k := rfl

@[simp] theorem ResourceData.GetChange_SetPartial (d : ResourceData) (x k : String) :
    (d.SetPartial x).GetChange k = d.GetChange k := by
  unfold ResourceData.SetPartial; split <;> rfl

@[simp] theorem ResourceData.HasChange_Partial (d : ResourceData) (b : Bool) (k : String) :
    (d.Partial b).HasChange k = d.HasChange k := rfl

@[simp] theorem ResourceData.HasChange_SetPartial (d : ResourceData) (x k : String) :
    (d.SetPartial x).HasChange k = d.HasChange k := by
  unfold ResourceData.SetPartial; split <;> rfl

@[simp] theorem ResourceData.Id_SetId (d : ResourceData) (v : String) :
    (d.SetId v).Id = v := rfl

@[simp] theorem ResourceData.Id_Partial (d : ResourceData) (b : Bool) :
    (d.Partial b).Id = d.Id := rfl

@[simp] theorem ResourceData.Id_SetPartial (d : ResourceData) (x : String) :
    (d.SetPartial x).Id = d.Id := by
  unfold ResourceData.SetPartial; split <;> rfl

section ReadTheorems

variable {σ κ : Type}

/-- What `getRemoteImportedContract` returns when `Get` fails: that error. -/
theorem getRemote_eq_of_get_error (client : Client σ κ)
    (ImportedContractFromContainer : κ → ImportedContract)
    (dn : String) (w : World σ) (e : String) (hget : (client.Get dn w.st).1 = .error e) :
    getRemoteImportedContract client ImportedContractFromContainer dn w
      = (.error e, ⟨(client.Get dn w.st).2, w.trace ++ [Call.Get dn]⟩) := by
  simp [getRemoteImportedContract, callGet, hget]

/-- What `getRemoteImportedContract` returns when the container decodes to an
empty DistinguishedName: the not-found error, built from that empty name. -/
theorem getRemote_eq_of_not_found (client : Client σ κ)
    (ImportedContractFromContainer : κ → ImportedContract)
    (dn : String) (w : World σ) (k : κ) (hget : (client.Get dn w.st).1 = .ok k)
    (hk : (ImportedContractFromContainer k).DistinguishedName = "") :
    getRemoteImportedContract client ImportedContractFromContainer dn w
      = (.error ("ImportedContract " ++ "" ++ " not found"),
          ⟨(client.Get dn w.st).2, w.trace ++ [Call.Get dn]⟩) := by
  simp [getRemoteImportedContract, callGet, hget, hk]

/-- What `getRemoteImportedContract` returns when the container decodes to a
non-empty DistinguishedName: the decoded bundle. -/
theorem getRemote_eq_of_found (client : Client σ κ)
    (ImportedContractFromContainer : κ → ImportedContract)
    (dn : String) (w : World σ) (k : κ) (hget : (client.Get dn w.st).1 = .ok k)
    (hk : (ImportedContractFromContainer k).DistinguishedName ≠ "") :
    getRemoteImportedContract client ImportedContractFromContainer dn w
      = (.ok (ImportedContractFromContainer k),
          ⟨(client.Get dn w.st).2, w.trace ++ [Call.Get dn]⟩) := by
  simp [getRemoteImportedContract, callGet, hget, hk]

/-- Read when the lookup of the declared identity yields an error of either sort:
no error is returned and only the identity changes, to empty. -/
theorem read_eq_of_getRemote_error (client : Client σ κ)
    (ImportedContractFromContainer : κ → ImportedContract)
    (d : ResourceData) (w w1 : World σ) (e : String)
    (h : getRemoteImportedContract client ImportedContractFromContainer d.Id w
      = (.error e, w1)) :
    resourceAciImportedContractRead client ImportedContractFromContainer d w
      = ⟨none, d.SetId "", w1⟩ := by
  simp [resourceAciImportedContractRead, h]

/-- Read when the object is not found. -/
theorem read_eq_of_not_found (client : Client σ κ)
    (ImportedContractFromContainer : κ → ImportedContract)
    (d : ResourceData) (w : World σ) (k : κ) (hget : (client.Get d.Id w.st).1 = .ok k)
    (hk : (ImportedContractFromContainer k).DistinguishedName = "") :
    resourceAciImportedContractRead client ImportedContractFromContainer d w
      = ⟨none, d.SetId "", ⟨(client.Get d.Id w.st).2, w.trace ++ [Call.Get d.Id]⟩⟩ :=
  read_eq_of_getRemote_error client ImportedContractFromContainer d w _ _
    (getRemote_eq_of_not_found client ImportedContractFromContainer d.Id w k hget hk)

/-- The calls Read issues: the lookup of the declared identity, followed or not by
the relation read on the same identity. -/
theorem read_trace (client : Client σ κ)
    (ImportedContractFromContainer : κ → ImportedContract)
    (d : ResourceData) (w : World σ) :
    (resourceAciImportedContractRead client ImportedContractFromContainer d w).world.trace
      = w.trace ++ [Call.Get d.Id] ∨
    (resourceAciImportedContractRead client ImportedContractFromContainer d w).world.trace
      = w.trace ++ [Call.Get d.Id, Call.ReadRelationvzRsIf d.Id] := by
  cases hg : (client.Get d.Id w.st).1 with
  | error e =>
    left
    simp [resourceAciImportedContractRead, getRemoteImportedContract, callGet, hg]
  | ok k =>
    by_cases hk : (ImportedContractFromContainer k).DistinguishedName = ""
    · left
      simp [resourceAciImportedContractRead, getRemoteImportedContract, callGet, hg, hk]
    · right
      cases hr : (client.ReadRelationvzRsIfFromImportedContract d.Id
          (client.Get d.Id w.st).2).1 <;>
        simp [resourceAciImportedContractRead, getRemoteImportedContract, callGet,
          callReadRelationvzRsIf, hg, hk, hr]

/-- Read only appends to the trace: what was issued before it stays in place. -/
theorem read_trace_extends (client : Client σ κ)
    (ImportedContractFromContainer : κ → ImportedContract)
    (d : ResourceData) (w : World σ) (pre mid : List Call) (c : Call)
    (h : w.trace = pre ++ c :: mid) :
    ∃ rest, (resourceAciImportedContractRead client ImportedContractFromContainer d
      w).world.trace = pre ++ c :: rest := by
  rcases read_trace client ImportedContractFromContainer d w with h1 | h1
  · exact ⟨mid ++ [Call.Get d.Id], by rw [h1, h]; simp⟩
  · exact ⟨mid ++ [Call.Get d.Id, Call.ReadRelationvzRsIf d.Id], by rw [h1, h]; simp⟩

/-- C1, as the code behaves: when `Get` on the declared identity fails, whatever
the error, Read issues that one `Get` and nothing else, returns no error, and
clears the declared identity (the rest of the declared state is untouched). -/
theorem read_swallows_get_error (client : Client σ κ)
    (ImportedContractFromContainer : κ → ImportedContract)
    (d : ResourceData) (w : World σ) (e : String)
    (hget : (client.Get d.Id w.st).1 = .error e) :
    (resourceAciImportedContractRead client ImportedContractFromContainer d w).err = none ∧
    (resourceAciImportedContractRead client ImportedContractFromContainer d w).d = d.SetId "" ∧
    (resourceAciImportedContractRead client ImportedContractFromContainer d w).world.trace
      = w.trace ++ [Call.Get d.Id] := by
  simp [resourceAciImportedContractRead, getRemoteImportedContract, callGet, hget]

/-- Witness for C1 as amended: an unreachable remote and the identity
`uni/tn-a/cif-b`. -/
theorem read_swallows_get_error_witness :
    (simClient.Get (declared "uni/tn-a/cif-b" (fun _ => none)).Id unreachableRemote).1
      = .error "connection refused" ∧
    (resourceAciImportedContractRead simClient simFromContainer
      (declared "uni/tn-a/cif-b" (fun _ => none)) ⟨unreachableRemote, []⟩).err = none ∧
    (resourceAciImportedContractRead simClient simFromContainer
      (declared "uni/tn-a/cif-b" (fun _ => none)) ⟨unreachableRemote, []⟩).d
        = (declared "uni/tn-a/cif-b" (fun _ => none)).SetId "" ∧
    (resourceAciImportedContractRead simClient simFromContainer
      (declared "uni/tn-a/cif-b" (fun _ => none)) ⟨unreachableRemote, []⟩).world.trace
        = [] ++ [Call.Get (declared "uni/tn-a/cif-b" (fun _ => none)).Id] :=
  ⟨rfl, read_swallows_get_error simClient simFromContainer
    (declared "uni/tn-a/cif-b" (fun _ => none)) ⟨unreachableRemote, []⟩
    "connection refused" rfl⟩

/-- C1 fails as stated: on an unreachable remote `Get` fails with the transport
error "connection refused", yet Read returns no error and the declared identity
`uni/tn-a/cif-b` is cleared. -/
theorem read_transport_error_counterexample :
    (simClient.Get "uni/tn-a/cif-b" unreachableRemote).1 = .error "connection refused" ∧
    (resourceAciImportedContractRead simClient simFromContainer
      (declared "uni/tn-a/cif-b" (fun _ => none)) ⟨unreachableRemote, []⟩).err
        ≠ some "connection refused" ∧
    (resourceAciImportedContractRead simClient simFromContainer
      (declared "uni/tn-a/cif-b" (fun _ => none)) ⟨unreachableRemote, []⟩).d.Id
        ≠ "uni/tn-a/cif-b" := by
  refine ⟨rfl, ?_, ?_⟩
  · simp [resourceAciImportedContractRead, getRemoteImportedContract, callGet, simClient,
      unreachableRemote]
  · simp [resourceAciImportedContractRead, getRemoteImportedContract, callGet, simClient,
      unreachableRemote, ResourceData.SetId, ResourceData.Id]

/-- C2: when the transport answers the lookup of the declared identity, and then
the lookup of the empty DN, with a container whose decoded DistinguishedName is
empty, Read returns no error and leaves the identity empty, and a second Read on
the resulting state again returns no error and leaves the identity empty. -/
theorem read_not_found_idempotent (client : Client σ κ)
    (ImportedContractFromContainer : κ → ImportedContract)
    (d : ResourceData) (w : World σ) (k1 k2 : κ)
    (h1 : (client.Get d.Id w.st).1 = .ok k1)
    (hk1 : (ImportedContractFromContainer k1).DistinguishedName = "")
    (h2 : (client.Get "" (client.Get d.Id w.st).2).1 = .ok k2)
    (hk2 : (ImportedContractFromContainer k2).DistinguishedName = "") :
    (resourceAciImportedContractRead client ImportedContractFromContainer d w).err = none ∧
    (resourceAciImportedContractRead client ImportedContractFromContainer d w).d.Id = "" ∧
    (resourceAciImportedContractRead client ImportedContractFromContainer
      (resourceAciImportedContractRead client ImportedContractFromContainer d w).d
      (resourceAciImportedContractRead client ImportedContractFromContainer d w).world).err
        = none ∧
    (resourceAciImportedContractRead client ImportedContractFromContainer
      (resourceAciImportedContractRead client ImportedContractFromContainer d w).d
      (resourceAciImportedContractRead client ImportedContractFromContainer d w).world).d.Id
        = "" := by
  have first := read_eq_of_not_found client ImportedContractFromContainer d w k1 h1 hk1
  have second := read_eq_of_not_found client ImportedContractFromContainer (d.SetId "")
    ⟨(client.Get d.Id w.st).2, w.trace ++ [Call.Get d.Id]⟩ k2 h2 hk2
  rw [first]
  simp only [second]
  simp [ResourceData.SetId, ResourceData.Id]

/-- Witness for C2: the identity `uni/tn-a/cif-b` on a remote that holds nothing. -/
theorem read_not_found_idempotent_witness :
    (resourceAciImportedContractRead simClient simFromContainer
      (declared "uni/tn-a/cif-b" (fun _ => none)) ⟨emptyRemote, []⟩).err = none ∧
    (resourceAciImportedContractRead simClient simFromContainer
      (declared "uni/tn-a/cif-b" (fun _ => none)) ⟨emptyRemote, []⟩).d.Id = "" ∧
    (resourceAciImportedContractRead simClient simFromContainer
      (resourceAciImportedContractRead simClient simFromContainer
        (declared "uni/tn-a/cif-b" (fun _ => none)) ⟨emptyRemote, []⟩).d
      (resourceAciImportedContractRead simClient simFromContainer
        (declared "uni/tn-a/cif-b" (fun _ => none)) ⟨emptyRemote, []⟩).world).err = none ∧
    (resourceAciImportedContractRead simClient simFromContainer
      (resourceAciImportedContractRead simClient simFromContainer
        (declared "uni/tn-a/cif-b" (fun _ => none)) ⟨emptyRemote, []⟩).d
      (resourceAciImportedContractRead simClient simFromContainer
        (declared "uni/tn-a/cif-b" (fun _ => none)) ⟨emptyRemote, []⟩).world).d.Id = "" :=
  read_not_found_idempotent simClient simFromContainer
    (declared "uni/tn-a/cif-b" (fun _ => none)) ⟨emptyRemote, []⟩ none none rfl rfl rfl rfl

/-- C9, the code at a failing input: looking up `uni/tn-a/cif-b` on a remote that
holds nothing yields the error "ImportedContract  not found", which does not
contain the requested DN. -/
theorem not_found_message_omits_dn :
    (getRemoteImportedContract simClient simFromContainer "uni/tn-a/cif-b"
      ⟨emptyRemote, []⟩).1 = .error "ImportedContract  not found" ∧
    containsSubstr "ImportedContract  not found" "uni/tn-a/cif-b" = false := by
  constructor
  · simp [getRemoteImportedContract, callGet, simClient, emptyRemote, simFromContainer]
  · decide

end ReadTheorems

/-! ### Create -/

section CreateTheorems

variable {σ κ : Type}

/-- C3, as the code behaves: when Save succeeds, the relation (if one is declared)
is created, and the lookup of the new identity made right afterwards is answered
with a container whose decoded DistinguishedName is empty, Create returns no
error and leaves the declared identity empty. -/
theorem create_not_found_returns_success (client : Client σ κ)
    (ImportedContractFromContainer : κ → ImportedContract)
    (d : ResourceData) (w : World σ) (k : κ)
    (hsave : (client.Save (declaredImportedContract d) w.st).1 = none)
    (hrel : (d.GetOk "relation_vz_rs_if").2 = true →
      (client.CreateRelationvzRsIfFromImportedContract
        (declaredImportedContract d).DistinguishedName (d.GetOk "relation_vz_rs_if").1
        (client.Save (declaredImportedContract d) w.st).2).1 = none)
    (hget : (client.Get (declaredImportedContract d).DistinguishedName
      (if (d.GetOk "relation_vz_rs_if").2 = true then
        (client.CreateRelationvzRsIfFromImportedContract
          (declaredImportedContract d).DistinguishedName (d.GetOk "relation_vz_rs_if").1
          (client.Save (declaredImportedContract d) w.st).2).2
      else (client.Save (declaredImportedContract d) w.st).2)).1 = .ok k)
    (hk : (ImportedContractFromContainer k).DistinguishedName = "") :
    (resourceAciImportedContractCreate client ImportedContractFromContainer d w).err = none ∧
    (resourceAciImportedContractCreate client ImportedContractFromContainer d w).d.Id = "" := by
  unfold resourceAciImportedContractCreate
  by_cases hr : (d.GetOk "relation_vz_rs_if").2 = true
  · rw [if_pos hr] at hget
    simp only [callSave, hsave, ResourceData.GetOk_Partial, ResourceData.GetOk_SetPartial,
      hr, if_true, callCreateRelationvzRsIf, hrel hr]
    rw [read_eq_of_not_found client ImportedContractFromContainer _ _ k (by simpa using hget) hk]
    simp
  · rw [if_neg hr] at hget
    have hr2 : (d.GetOk "relation_vz_rs_if").2 = false := by simpa using hr
    simp only [callSave, hsave, ResourceData.GetOk_Partial, ResourceData.GetOk_SetPartial,
      hr2, Bool.false_eq_true, if_false]
    rw [read_eq_of_not_found client ImportedContractFromContainer _ _ k (by simpa using hget) hk]
    simp

/-- Witness for C3 as amended: a transport that acknowledges the Save and then
answers the lookup with an empty container. -/
theorem create_not_found_returns_success_witness :
    (ackOnlyClient.Save (declaredImportedContract declaredWeb) ()).1 = none ∧
    (resourceAciImportedContractCreate ackOnlyClient ackOnlyFromContainer declaredWeb
      ⟨(), []⟩).err = none ∧
    (resourceAciImportedContractCreate ackOnlyClient ackOnlyFromContainer declaredWeb
      ⟨(), []⟩).d.Id = "" :=
  ⟨rfl, create_not_found_returns_success ackOnlyClient ackOnlyFromContainer declaredWeb
    ⟨(), []⟩ () rfl (fun _ => rfl) rfl rfl⟩

/-- C3 fails as stated: Save of `uni/tn-a/cif-web` succeeds, the lookup made right
after it finds nothing, and Create returns no error. -/
theorem create_not_found_counterexample :
    (ackOnlyClient.Save (declaredImportedContract declaredWeb) ()).1 = none ∧
    (getRemoteImportedContract ackOnlyClient ackOnlyFromContainer "uni/tn-a/cif-web"
      ⟨(), [Call.Save (declaredImportedContract declaredWeb)]⟩).1
        = .error "ImportedContract  not found" ∧
    (resourceAciImportedContractCreate ackOnlyClient ackOnlyFromContainer declaredWeb
      ⟨(), []⟩).err = none := by
  refine ⟨rfl, ?_, ?_⟩
  · simp [getRemoteImportedContract, callGet, ackOnlyClient, ackOnlyFromContainer,
      simFromContainer]
  · simp [resourceAciImportedContractCreate, resourceAciImportedContractRead,
      getRemoteImportedContract, callGet, callSave, ackOnlyClient, ackOnlyFromContainer,
      simFromContainer, declaredWeb, declared, ResourceData.GetOk, ResourceData.Partial,
      ResourceData.SetPartial, ResourceData.SetId]

/-- The first call Create issues is the Save of the bundle built from the declared
state. -/
theorem create_first_call (client : Client σ κ)
    (ImportedContractFromContainer : κ → ImportedContract)
    (d : ResourceData) (w : World σ) :
    ∃ rest, (resourceAciImportedContractCreate client ImportedContractFromContainer d
      w).world.trace = w.trace ++ Call.Save (declaredImportedContract d) :: rest := by
  unfold resourceAciImportedContractCreate
  cases hs : (client.Save (declaredImportedContract d) w.st).1 with
  | some e => exact ⟨[], by simp [callSave, hs]⟩
  | none =>
    simp only [callSave, hs, ResourceData.GetOk_Partial, ResourceData.GetOk_SetPartial]
    cases hr : (d.GetOk "relation_vz_rs_if").2 with
    | false =>
      simp only [Bool.false_eq_true, if_false]
      exact read_trace_extends client ImportedContractFromContainer _ _ w.trace [] _
        (by simp)
    | true =>
      simp only [if_true]
      cases hc : (client.CreateRelationvzRsIfFromImportedContract
          (declaredImportedContract d).DistinguishedName (d.GetOk "relation_vz_rs_if").1
          (client.Save (declaredImportedContract d) w.st).2).1 with
      | some e =>
        exact ⟨[Call.CreateRelationvzRsIf (declaredImportedContract d).DistinguishedName
          (d.GetOk "relation_vz_rs_if").1], by simp [callCreateRelationvzRsIf, hc]⟩
      | none =>
        simp only [callCreateRelationvzRsIf, hc]
        exact read_trace_extends client ImportedContractFromContainer _ _ w.trace
          [Call.CreateRelationvzRsIf (declaredImportedContract d).DistinguishedName
            (d.GetOk "relation_vz_rs_if").1] _ (by simp)

end CreateTheorems

/-! ### Update -/

section UpdateTheorems

variable {σ κ : Type}

/-- The calls Update issues: the Save of the declared bundle with Status
"modified", then relation writes, then the calls of Read. The relation writes are
none, the DeleteRelation alone, or the DeleteRelation followed by the
CreateRelation of the newly declared target; when Save fails nothing follows it. -/
theorem update_trace (client : Client σ κ)
    (ImportedContractFromContainer : κ → ImportedContract)
    (d : ResourceData) (w : World σ) :
    ∃ rels reads : List Call,
      (resourceAciImportedContractUpdate client ImportedContractFromContainer d w).world.trace
        = w.trace ++ Call.Save { declaredImportedContract d with Status := "modified" }
            :: (rels ++ reads) ∧
      (rels = [] ∨
        rels = [Call.DeleteRelationvzRsIf (declaredImportedContract d).DistinguishedName] ∨
        rels = [Call.DeleteRelationvzRsIf (declaredImportedContract d).DistinguishedName,
          Call.CreateRelationvzRsIf (declaredImportedContract d).DistinguishedName
            (d.GetChange "relation_vz_rs_if").2]) ∧
      (reads = [] ∨
        reads = [Call.Get (declaredImportedContract d).DistinguishedName] ∨
        reads = [Call.Get (declaredImportedContract d).DistinguishedName,
          Call.ReadRelationvzRsIf (declaredImportedContract d).DistinguishedName]) ∧
      ((client.Save { declaredImportedContract d with Status := "modified" } w.st).1 ≠ none →
        rels = [] ∧ reads = []) := by
  unfold resourceAciImportedContractUpdate
  cases hs : (client.Save { declaredImportedContract d with Status := "modified" } w.st).1 with
  | some e =>
    exact ⟨[], [], by simp [callSave, hs], Or.inl rfl, Or.inl rfl, fun _ => ⟨rfl, rfl⟩⟩
  | none =>
    simp only [callSave, hs, ResourceData.HasChange_Partial, ResourceData.HasChange_SetPartial,
      ResourceData.GetChange_Partial, ResourceData.GetChange_SetPartial]
    cases hc : d.HasChange "relation_vz_rs_if" with
    | false =>
      simp only [Bool.false_eq_true, if_false]
      rcases read_trace client ImportedContractFromContainer
        ((((d.Partial true).SetPartial "name").Partial false).SetId
          (declaredImportedContract d).DistinguishedName)
        ⟨(client.Save { declaredImportedContract d with Status := "modified" } w.st).2,
          w.trace ++ [Call.Save { declaredImportedContract d with Status := "modified" }]⟩
        with h | h
      · exact ⟨[], [Call.Get _], by simpa using h, Or.inl rfl, Or.inr (Or.inl rfl),
          fun hne => absurd rfl hne⟩
      · exact ⟨[], [Call.Get _, Call.ReadRelationvzRsIf _], by simpa using h, Or.inl rfl,
          Or.inr (Or.inr rfl), fun hne => absurd rfl hne⟩
    | true =>
      simp only [if_true]
      cases hd : (client.DeleteRelationvzRsIfFromImportedContract
          (declaredImportedContract d).DistinguishedName
          (client.Save { declaredImportedContract d with Status := "modified" } w.st).2).1 with
      | some e =>
        exact ⟨[Call.DeleteRelationvzRsIf _], [], by simp [callDeleteRelationvzRsIf, hd],
          Or.inr (Or.inl rfl), Or.inl rfl, fun hne => absurd rfl hne⟩
      | none =>
        simp only [callDeleteRelationvzRsIf, hd]
        cases hcr : (client.CreateRelationvzRsIfFromImportedContract
            (declaredImportedContract d).DistinguishedName (d.GetChange "relation_vz_rs_if").2
            (client.DeleteRelationvzRsIfFromImportedContract
              (declaredImportedContract d).DistinguishedName
              (client.Save { declaredImportedContract d with Status := "modified" }
                w.st).2).2).1 with
        | some e =>
          exact ⟨[Call.DeleteRelationvzRsIf _, Call.CreateRelationvzRsIf _ _], [],
            by simp [callCreateRelationvzRsIf, hcr], Or.inr (Or.inr rfl), Or.inl rfl,
            fun hne => absurd rfl hne⟩
        | none =>
          simp only [callCreateRelationvzRsIf, hcr]
          rcases read_trace client ImportedContractFromContainer
            (((((((d.Partial true).SetPartial "name").Partial false).Partial true).SetPartial
              "relation_vz_rs_if").Partial false).SetId
              (declaredImportedContract d).DistinguishedName)
            ⟨(client.CreateRelationvzRsIfFromImportedContract
              (declaredImportedContract d).DistinguishedName
              (d.GetChange "relation_vz_rs_if").2
              (client.DeleteRelationvzRsIfFromImportedContract
                (declaredImportedContract d).DistinguishedName
                (client.Save { declaredImportedContract d with Status := "modified" }
                  w.st).2).2).2,
              w.trace ++ [Call.Save { declaredImportedContract d with Status := "modified" }]
                ++ [Call.DeleteRelationvzRsIf (declaredImportedContract d).DistinguishedName]
                ++ [Call.CreateRelationvzRsIf (declaredImportedContract d).DistinguishedName
                  (d.GetChange "relation_vz_rs_if").2]⟩
            with h | h
          · exact ⟨[Call.DeleteRelationvzRsIf _, Call.CreateRelationvzRsIf _ _],
              [Call.Get _], by simpa using h, Or.inr (Or.inr rfl), Or.inr (Or.inl rfl),
              fun hne => absurd rfl hne⟩
          · exact ⟨[Call.DeleteRelationvzRsIf _, Call.CreateRelationvzRsIf _ _],
              [Call.Get _, Call.ReadRelationvzRsIf _], by simpa using h, Or.inr (Or.inr rfl),
              Or.inr (Or.inr rfl), fun hne => absurd rfl hne⟩

/-- C7: the calls Update issues begin with the Save of the bundle with Status
"modified"; no further Save follows; among the calls after it no CreateRelation
is followed by a DeleteRelation, and when a CreateRelation is issued the call
right after the Save is the DeleteRelation; when Save fails nothing is issued
after it. -/
theorem update_call_order (client : Client σ κ)
    (ImportedContractFromContainer : κ → ImportedContract)
    (d : ResourceData) (w : World σ) :
    ∃ rest : List Call,
      (resourceAciImportedContractUpdate client ImportedContractFromContainer d w).world.trace
        = w.trace ++ Call.Save { declaredImportedContract d with Status := "modified" }
            :: rest ∧
      ({ declaredImportedContract d with Status := "modified" } : ImportedContract).Status
        = "modified" ∧
      (∀ c ∈ rest, c.isSave = false) ∧
      rest.Pairwise (fun a b => a.isCreateRelation = true → b.isDeleteRelation = false) ∧
      ((∃ c ∈ rest, c.isCreateRelation = true) →
        ∃ tl, rest = Call.DeleteRelationvzRsIf (declaredImportedContract d).DistinguishedName
          :: tl) ∧
      ((client.Save { declaredImportedContract d with Status := "modified" } w.st).1 ≠ none →
        rest = []) := by
  obtain ⟨rels, reads, ht, hrels, hreads, hfail⟩ :=
    update_trace client ImportedContractFromContainer d w
  refine ⟨rels ++ reads, ht, rfl, ?_, ?_, ?_, ?_⟩
  · rcases hrels with rfl | rfl | rfl <;> rcases hreads with rfl | rfl | rfl <;>
      simp [Call.isSave]
  · rcases hrels with rfl | rfl | rfl <;> rcases hreads with rfl | rfl | rfl <;>
      simp [Call.isCreateRelation, Call.isDeleteRelation]
  · rcases hrels with rfl | rfl | rfl <;> rcases hreads with rfl | rfl | rfl <;>
      simp [Call.isCreateRelation]
  · intro hne
    obtain ⟨h1, h2⟩ := hfail hne
    simp [h1, h2]

/-- The bundle Create and Update build carries, as Annotation and NameAlias, the
current values of `annotation` and `name_alias` in the declared state, and an
empty Name. -/
theorem declaredImportedContract_eq (d : ResourceData) :
    declaredImportedContract d =
      { DistinguishedName := d.Get "tenant_dn" ++ "/cif-" ++ d.Get "name"
        Description := d.Get "description"
        Status := "created, modified"
        ClassName := "vzCPIf"
        Rn := "cif-" ++ d.Get "name"
        Attributes :=
          { Name := "", Annotation := d.Get "annotation", NameAlias := d.Get "name_alias" } } := by
  have hcat : d.Get "tenant_dn" ++ "/" ++ ("cif-" ++ d.Get "name")
      = d.Get "tenant_dn" ++ "/cif-" ++ d.Get "name" := by
    rw [String.append_assoc, ← String.append_assoc "/" "cif-", ← String.append_assoc]
    rfl
  have hfield : ∀ key : String,
      (if (d.GetOk key).2 = true then (d.GetOk key).1 else "") = d.Get key := by
    intro key
    unfold ResourceData.GetOk ResourceData.Get
    cases d.attrs key with
    | none => simp
    | some v => by_cases hv : v = "" <;> simp [hv]
  have ha := hfield "annotation"
  have hn := hfield "name_alias"
  unfold declaredImportedContract NewImportedContract ImportedContractAttributes.zero
    VzcpifClassName
  simp only [hcat]
  by_cases h1 : (d.GetOk "annotation").2 = true <;>
    by_cases h2 : (d.GetOk "name_alias").2 = true <;>
    simp only [h1, h2, if_true, if_false, Bool.false_eq_true] at ha hn ⊢ <;>
    simp [← ha, ← hn]

/-- C4, as the code behaves: the first call of Create is the Save of the bundle
built from the declared state, and the first call of Update is the Save of the
same bundle with Status "modified". That bundle has the identity
tenant_dn + "/cif-" + name, the declared description, an empty Name, and as
Annotation and NameAlias the current values of `annotation` and `name_alias`:
the value the caller configured or, these two attributes being Computed, the
stored value when the caller configured none. So with no stored state (a Create)
and neither key configured both are empty, and a configured non-empty value is
copied as it is. -/
theorem save_bundle_merged_view (client : Client σ κ)
    (ImportedContractFromContainer : κ → ImportedContract)
    (d : ResourceData) (w : World σ) :
    (∃ rest, (resourceAciImportedContractCreate client ImportedContractFromContainer d
      w).world.trace = w.trace ++ Call.Save (declaredImportedContract d) :: rest) ∧
    (∃ rest, (resourceAciImportedContractUpdate client ImportedContractFromContainer d
      w).world.trace = w.trace ++
        Call.Save { declaredImportedContract d with Status := "modified" } :: rest) ∧
    declaredImportedContract d =
      { DistinguishedName := d.Get "tenant_dn" ++ "/cif-" ++ d.Get "name"
        Description := d.Get "description"
        Status := "created, modified"
        ClassName := "vzCPIf"
        Rn := "cif-" ++ d.Get "name"
        Attributes :=
          { Name := "", Annotation := d.Get "annotation", NameAlias := d.Get "name_alias" } } ∧
    (∀ (state : ResourceData) (config : String → Option String),
      (plannedResourceData resourceAciImportedContractSchema state config).Get "annotation"
        = (match config "annotation" with
          | some v => v
          | none => state.Get "annotation") ∧
      (plannedResourceData resourceAciImportedContractSchema state config).Get "name_alias"
        = (match config "name_alias" with
          | some v => v
          | none => state.Get "name_alias")) ∧
    (∀ config : String → Option String,
      config "annotation" = none → config "name_alias" = none →
      (declaredImportedContract (plannedResourceData resourceAciImportedContractSchema
        (declared "" (fun _ => none)) config)).Attributes
        = { Name := "", Annotation := "", NameAlias := "" }) ∧
    (∀ (state : ResourceData) (config : String → Option String) (v : String),
      (config "annotation" = some v → v ≠ "" →
        (declaredImportedContract (plannedResourceData resourceAciImportedContractSchema
          state config)).Attributes.Annotation = v) ∧
      (config "name_alias" = some v → v ≠ "" →
        (declaredImportedContract (plannedResourceData resourceAciImportedContractSchema
          state config)).Attributes.NameAlias = v)) := by
  have hplan : ∀ (state : ResourceData) (config : String → Option String),
      (plannedResourceData resourceAciImportedContractSchema state config).Get "annotation"
        = (match config "annotation" with
          | some v => v
          | none => state.Get "annotation") ∧
      (plannedResourceData resourceAciImportedContractSchema state config).Get "name_alias"
        = (match config "name_alias" with
          | some v => v
          | none => state.Get "name_alias") := by
    intro state config
    constructor
    · cases hc : config "annotation" <;>
        simp [plannedResourceData, resourceAciImportedContractSchema, ResourceData.Get, hc]
    · cases hc : config "name_alias" <;>
        simp [plannedResourceData, resourceAciImportedContractSchema, ResourceData.Get, hc]
  refine ⟨create_first_call client ImportedContractFromContainer d w, ?_,
    declaredImportedContract_eq d, hplan, ?_, ?_⟩
  · obtain ⟨rels, reads, ht, -⟩ := update_trace client ImportedContractFromContainer d w
    exact ⟨rels ++ reads, ht⟩
  · intro config ha hn
    rw [declaredImportedContract_eq]
    obtain ⟨h1, h2⟩ := hplan (declared "" (fun _ => none)) config
    rw [ha] at h1
    rw [hn] at h2
    simp only [h1, h2]
    simp [ResourceData.Get, declared]
  · intro state config v
    obtain ⟨h1, h2⟩ := hplan state config
    constructor
    · intro hv _
      rw [declaredImportedContract_eq]
      simp [h1, hv]
    · intro hv _
      rw [declaredImportedContract_eq]
      simp [h2, hv]

/-- Witness for C7: on the reference transport with no failure, Update of
`uni/tn-a/cif-web` with a changed relation issues Save, DeleteRelation,
CreateRelation and then the two calls of Read, in that order. -/
theorem update_call_order_witness :
    (resourceAciImportedContractUpdate simClient simFromContainer declaredWebChanged
      ⟨remoteWithRelation none, []⟩).world.trace
      = [Call.Save { declaredImportedContract declaredWebChanged with Status := "modified" },
          Call.DeleteRelationvzRsIf "uni/tn-a/cif-web",
          Call.CreateRelationvzRsIf "uni/tn-a/cif-web" "uni/tn-b/brc-new",
          Call.Get "uni/tn-a/cif-web",
          Call.ReadRelationvzRsIf "uni/tn-a/cif-web"] ∧
    ∃ rest : List Call,
      (resourceAciImportedContractUpdate simClient simFromContainer declaredWebChanged
        ⟨remoteWithRelation none, []⟩).world.trace
        = [] ++ Call.Save { declaredImportedContract declaredWebChanged with
            Status := "modified" } :: rest ∧
      (∀ c ∈ rest, c.isSave = false) ∧
      rest.Pairwise (fun a b => a.isCreateRelation = true → b.isDeleteRelation = false) := by
  refine ⟨by decide, ?_⟩
  obtain ⟨rest, h1, -, h3, h4, -⟩ := update_call_order simClient simFromContainer
    declaredWebChanged ⟨remoteWithRelation none, []⟩
  exact ⟨rest, h1, h3, h4⟩

/-- Witness for C4 as amended: a Create of `tenant_dn = uni/tn-a`, `name = web` with
neither key configured saves a bundle with identity `uni/tn-a/cif-web` and empty
attributes; with `annotation` configured as `tag` the bundle carries `tag`. -/
theorem save_bundle_merged_view_witness :
    declaredImportedContract declaredWeb =
      { DistinguishedName := "uni/tn-a/cif-web", Description := "",
        Status := "created, modified", ClassName := "vzCPIf", Rn := "cif-web",
        Attributes := { Name := "", Annotation := "", NameAlias := "" } } ∧
    (declaredImportedContract (plannedResourceData resourceAciImportedContractSchema
      storedWeb (fun k => if k = "annotation" then some "tag" else none))).Attributes.Annotation
        = "tag" :=
  ⟨((save_bundle_merged_view simClient simFromContainer declaredWeb
      ⟨emptyRemote, []⟩).2.2.1).trans (by decide),
    ((save_bundle_merged_view simClient simFromContainer declaredWeb
      ⟨emptyRemote, []⟩).2.2.2.2.2 storedWeb
      (fun k => if k = "annotation" then some "tag" else none) "tag").1
      (by decide) (by decide)⟩

/-- C4 fails as stated: the caller configures neither `annotation` nor `name_alias`
for `uni/tn-a/cif-web`, whose stored state holds the values a Read took from the
remote; the bundle Update saves carries those values, not empty ones. -/
theorem save_bundle_unset_counterexample :
    configWebPlain "annotation" = none ∧ configWebPlain "name_alias" = none ∧
    storedWeb.attrs "annotation" = some "orchestrator:terraform" ∧
    storedWeb.attrs "name_alias" = some "w" ∧
    (resourceAciImportedContractUpdate simClient simFromContainer
      (plannedResourceData resourceAciImportedContractSchema storedWeb configWebPlain)
      ⟨remoteWithRelation none, []⟩).world.trace.head?
      = some (Call.Save
          { DistinguishedName := "uni/tn-a/cif-web", Description := "changed",
            Status := "modified", ClassName := "vzCPIf", Rn := "cif-web",
            Attributes :=
              { Name := "", Annotation := "orchestrator:terraform", NameAlias := "w" } }) := by
  refine ⟨by decide, by decide, by decide, by decide, by decide⟩

end UpdateTheorems

/-! ### Partial failure of the relation update -/

/-- The identity Create and Update build is never empty. -/
theorem declared_identity_ne_empty (d : ResourceData) :
    (declaredImportedContract d).DistinguishedName ≠ "" := by
  intro h
  have hlen := congrArg String.length h
  simp [declaredImportedContract, NewImportedContract, String.length_append] at hlen
  exact absurd hlen.1.2 (by decide)

/-- C6, as the code behaves: on the reference transport, let P be the DN Update
builds from the declared parent and name, holding a relation R1 remotely, and
let the declared relation have changed. When Save and DeleteRelation succeed and
CreateRelation fails with `e`, Update returns `e` after exactly those three
calls on P; P has no relation remotely and every other DN keeps its own; the
saved bundle stays stored at P; the declared identity is kept. A following Read
does not pick the loss up: when the declared identity is P, Read returns no
error and leaves `relation_vz_rs_if` at its declared value, because the relation
read on P fails. -/
theorem update_partial_relation_failure (r : Remote) (d : ResourceData) (R1 e : String)
    (_hR1 : r.rels (declaredImportedContract d).DistinguishedName = some R1)
    (hchange : d.HasChange "relation_vz_rs_if" = true)
    (hsave : r.faults r.step = none)
    (hdelete : r.faults (r.step + 1) = none)
    (hcreate : r.faults (r.step + 2) = some e) :
    (resourceAciImportedContractUpdate simClient simFromContainer d ⟨r, []⟩).err = some e ∧
    (resourceAciImportedContractUpdate simClient simFromContainer d ⟨r, []⟩).world.trace
      = [Call.Save { declaredImportedContract d with Status := "modified" },
          Call.DeleteRelationvzRsIf (declaredImportedContract d).DistinguishedName,
          Call.CreateRelationvzRsIf (declaredImportedContract d).DistinguishedName
            (d.GetChange "relation_vz_rs_if").2] ∧
    (resourceAciImportedContractUpdate simClient simFromContainer d ⟨r, []⟩).world.st.rels
      (declaredImportedContract d).DistinguishedName = none ∧
    (∀ k, k ≠ (declaredImportedContract d).DistinguishedName →
      (resourceAciImportedContractUpdate simClient simFromContainer d ⟨r, []⟩).world.st.rels k
        = r.rels k) ∧
    (resourceAciImportedContractUpdate simClient simFromContainer d ⟨r, []⟩).world.st.objs
      (declaredImportedContract d).DistinguishedName
      = some { declaredImportedContract d with Status := "modified" } ∧
    (resourceAciImportedContractUpdate simClient simFromContainer d ⟨r, []⟩).d.Id = d.Id ∧
    (d.Id = (declaredImportedContract d).DistinguishedName →
      (resourceAciImportedContractRead simClient simFromContainer
        (resourceAciImportedContractUpdate simClient simFromContainer d ⟨r, []⟩).d
        (resourceAciImportedContractUpdate simClient simFromContainer d ⟨r, []⟩).world).err
          = none ∧
      (resourceAciImportedContractRead simClient simFromContainer
        (resourceAciImportedContractUpdate simClient simFromContainer d ⟨r, []⟩).d
        (resourceAciImportedContractUpdate simClient simFromContainer d ⟨r, []⟩).world).d.attrs
          "relation_vz_rs_if" = d.attrs "relation_vz_rs_if") := by
  have hne := declared_identity_ne_empty d
  have hupd : resourceAciImportedContractUpdate simClient simFromContainer d ⟨r, []⟩ =
      ⟨some e, ((d.Partial true).SetPartial "name").Partial false,
        ⟨{ objs := fun k => if k = (declaredImportedContract d).DistinguishedName then
              some { declaredImportedContract d with Status := "modified" } else r.objs k
           rels := fun k => if k = (declaredImportedContract d).DistinguishedName then none
              else r.rels k
           faults := r.faults
           step := r.step + 3 },
          [Call.Save { declaredImportedContract d with Status := "modified" },
            Call.DeleteRelationvzRsIf (declaredImportedContract d).DistinguishedName,
            Call.CreateRelationvzRsIf (declaredImportedContract d).DistinguishedName
              (d.GetChange "relation_vz_rs_if").2]⟩⟩ := by
    simp [resourceAciImportedContractUpdate, callSave, callDeleteRelationvzRsIf,
      callCreateRelationvzRsIf, simClient, Remote.tick, hsave, hdelete, hcreate, hchange]
  rw [hupd]
  refine ⟨rfl, rfl, by simp, ?_, by simp, by simp, ?_⟩
  · intro k hk
    simp [hk]
  · intro hid
    have hattrs : (((d.Partial true).SetPartial "name").Partial false).attrs = d.attrs := rfl
    cases hget : r.faults (r.step + 3) with
    | some e3 =>
      simp [resourceAciImportedContractRead, getRemoteImportedContract, callGet, simClient,
        Remote.tick, hget, ResourceData.SetId, hattrs]
    | none =>
      cases hread : r.faults (r.step + 3 + 1) with
      | some e4 =>
        simp [resourceAciImportedContractRead, getRemoteImportedContract, callGet,
          callReadRelationvzRsIf, simClient, Remote.tick, simFromContainer, hget, hread,
          hid, hne, ResourceData.Set, setImportedContractAttributes, ResourceData.SetId,
          hattrs]
      | none =>
        simp [resourceAciImportedContractRead, getRemoteImportedContract, callGet,
          callReadRelationvzRsIf, simClient, Remote.tick, simFromContainer, hget, hread,
          hid, hne, ResourceData.Set, setImportedContractAttributes, ResourceData.SetId,
          hattrs]

/-- Witness for C6 as amended: `uni/tn-a/cif-web` related to `uni/tn-b/brc-old`, the
relation redeclared as `uni/tn-b/brc-new`, the third call (the CreateRelation)
failing. -/
theorem update_partial_relation_failure_witness :
    (remoteWithRelation (some 2)).rels
      (declaredImportedContract declaredWebChanged).DistinguishedName
        = some "uni/tn-b/brc-old" ∧
    (resourceAciImportedContractUpdate simClient simFromContainer declaredWebChanged
      ⟨remoteWithRelation (some 2), []⟩).err = some "create failed" ∧
    (resourceAciImportedContractUpdate simClient simFromContainer declaredWebChanged
      ⟨remoteWithRelation (some 2), []⟩).world.st.rels
        (declaredImportedContract declaredWebChanged).DistinguishedName = none ∧
    (resourceAciImportedContractRead simClient simFromContainer
      (resourceAciImportedContractUpdate simClient simFromContainer declaredWebChanged
        ⟨remoteWithRelation (some 2), []⟩).d
      (resourceAciImportedContractUpdate simClient simFromContainer declaredWebChanged
        ⟨remoteWithRelation (some 2), []⟩).world).d.attrs "relation_vz_rs_if"
      = declaredWebChanged.attrs "relation_vz_rs_if" :=
  have h := update_partial_relation_failure (remoteWithRelation (some 2)) declaredWebChanged
    "uni/tn-b/brc-old" "create failed" (by decide) (by decide) (by decide) (by decide)
    (by decide)
  ⟨by decide, h.1, h.2.2.1, (h.2.2.2.2.2.2 (by decide)).2⟩

/-- C6 fails as stated: `uni/tn-a/cif-web` holds a relation to `uni/tn-b/brc-old`, the
relation is redeclared as `uni/tn-b/brc-new`, Save and DeleteRelation succeed and
CreateRelation fails. Update returns the error and the remote relation is gone,
yet the following Read, whose relation read fails for want of a relation,
returns no error and leaves `uni/tn-b/brc-new` in the declared state. -/
theorem update_partial_failure_read_counterexample :
    (remoteWithRelation (some 2)).rels "uni/tn-a/cif-web" = some "uni/tn-b/brc-old" ∧
    (resourceAciImportedContractUpdate simClient simFromContainer declaredWebChanged
      ⟨remoteWithRelation (some 2), []⟩).err = some "create failed" ∧
    (resourceAciImportedContractUpdate simClient simFromContainer declaredWebChanged
      ⟨remoteWithRelation (some 2), []⟩).world.st.rels "uni/tn-a/cif-web" = none ∧
    (resourceAciImportedContractRead simClient simFromContainer
      (resourceAciImportedContractUpdate simClient simFromContainer declaredWebChanged
        ⟨remoteWithRelation (some 2), []⟩).d
      (resourceAciImportedContractUpdate simClient simFromContainer declaredWebChanged
        ⟨remoteWithRelation (some 2), []⟩).world).world.trace
      = [Call.Save { declaredImportedContract declaredWebChanged with Status := "modified" },
          Call.DeleteRelationvzRsIf "uni/tn-a/cif-web",
          Call.CreateRelationvzRsIf "uni/tn-a/cif-web" "uni/tn-b/brc-new",
          Call.Get "uni/tn-a/cif-web",
          Call.ReadRelationvzRsIf "uni/tn-a/cif-web"] ∧
    (resourceAciImportedContractRead simClient simFromContainer
      (resourceAciImportedContractUpdate simClient simFromContainer declaredWebChanged
        ⟨remoteWithRelation (some 2), []⟩).d
      (resourceAciImportedContractUpdate simClient simFromContainer declaredWebChanged
        ⟨remoteWithRelation (some 2), []⟩).world).err = none ∧
    (resourceAciImportedContractRead simClient simFromContainer
      (resourceAciImportedContractUpdate simClient simFromContainer declaredWebChanged
        ⟨remoteWithRelation (some 2), []⟩).d
      (resourceAciImportedContractUpdate simClient simFromContainer declaredWebChanged
        ⟨remoteWithRelation (some 2), []⟩).world).d.attrs "relation_vz_rs_if"
      = some "uni/tn-b/brc-new" := by
  refine ⟨by decide, by decide, by decide, by decide, by decide, by decide⟩

/-! ### Import -/

section ImportTheorems

variable {σ κ : Type}

/-- C8, as the code behaves: Import issues the lookup of the given identity and
nothing else. When the lookup fails, or finds nothing, Import returns the error
and no declared state. When the lookup finds the object at that identity, Import
returns one declared state with identity, `tenant_dn` (the parent of the
identity) and `description` taken from the fetched object, with `name`,
`annotation` and `name_alias` taken from it too, except that the value `"{}"` of
an attribute the answer lacks is written as empty, and with `relation_vz_rs_if`
left as it was. -/
theorem import_populates_primary_only (client : Client σ κ)
    (ImportedContractFromContainer : κ → ImportedContract)
    (d : ResourceData) (w : World σ) :
    (resourceAciImportedContractImport client ImportedContractFromContainer d w).2.trace
      = w.trace ++ [Call.Get d.Id] ∧
    (∀ e, (client.Get d.Id w.st).1 = .error e →
      (resourceAciImportedContractImport client ImportedContractFromContainer d w).1
        = .error e) ∧
    (∀ k, (client.Get d.Id w.st).1 = .ok k →
      (ImportedContractFromContainer k).DistinguishedName = "" →
      (resourceAciImportedContractImport client ImportedContractFromContainer d w).1
        = .error "ImportedContract  not found") ∧
    (∀ k, (client.Get d.Id w.st).1 = .ok k →
      (ImportedContractFromContainer k).DistinguishedName = d.Id → d.Id ≠ "" →
      ∃ filled, (resourceAciImportedContractImport client ImportedContractFromContainer d w).1
          = .ok [filled] ∧
        filled.Id = d.Id ∧
        filled.Get "tenant_dn" = GetParentDn d.Id ∧
        filled.Get "name" =
          (if (ImportedContractFromContainer k).Attributes.Name = "{}" then ""
            else (ImportedContractFromContainer k).Attributes.Name) ∧
        filled.Get "annotation" =
          (if (ImportedContractFromContainer k).Attributes.Annotation = "{}" then ""
            else (ImportedContractFromContainer k).Attributes.Annotation) ∧
        filled.Get "name_alias" =
          (if (ImportedContractFromContainer k).Attributes.NameAlias = "{}" then ""
            else (ImportedContractFromContainer k).Attributes.NameAlias) ∧
        filled.Get "description" = (ImportedContractFromContainer k).Description ∧
        filled.attrs "relation_vz_rs_if" = d.attrs "relation_vz_rs_if") := by
  refine ⟨?_, ?_, ?_, ?_⟩
  · cases hg : (client.Get d.Id w.st).1 with
    | error e =>
      simp [resourceAciImportedContractImport, getRemoteImportedContract, callGet, hg]
    | ok k =>
      by_cases hk : (ImportedContractFromContainer k).DistinguishedName = "" <;>
        simp [resourceAciImportedContractImport, getRemoteImportedContract, callGet, hg, hk]
  · intro e hg
    simp [resourceAciImportedContractImport, getRemoteImportedContract, callGet, hg]
  · intro k hg hk
    simp [resourceAciImportedContractImport, getRemoteImportedContract, callGet, hg, hk]
  · intro k hg hk hne
    have hk2 : (ImportedContractFromContainer k).DistinguishedName ≠ "" := hk ▸ hne
    refine ⟨setImportedContractAttributes (ImportedContractFromContainer k) d, ?_, ?_⟩
    · simp [resourceAciImportedContractImport, getRemoteImportedContract, callGet, hg, hk2]
    · simp [setImportedContractAttributes, ResourceData.Set, ResourceData.SetId,
        ResourceData.Get, ResourceData.Id, ToMap_name, ToMap_annotation, ToMap_nameAlias, hk]

/-- Witness for C8 as amended: importing `uni/tn-a/cif-web` from a remote that holds
it yields its name `web`; and an object whose answer lacks the alias is imported
with an empty `name_alias`. -/
theorem import_populates_primary_only_witness :
    (∃ filled, (resourceAciImportedContractImport simClient simFromContainer
        (declared "uni/tn-a/cif-web" (fun _ => none)) ⟨remoteWithRelation none, []⟩).1
          = .ok [filled] ∧
      filled.Id = "uni/tn-a/cif-web" ∧ filled.Get "tenant_dn" = "uni/tn-a" ∧
      filled.Get "name" = "web" ∧ filled.attrs "relation_vz_rs_if" = none) ∧
    (∃ filled, (resourceAciImportedContractImport ackOnlyClient
        (fun _ => { remoteWeb with Attributes := { remoteWeb.Attributes with NameAlias := "{}" } })
        (declared "uni/tn-a/cif-web" (fun _ => none)) ⟨(), []⟩).1 = .ok [filled] ∧
      filled.Get "name_alias" = "") := by
  obtain ⟨filled, h1, h2, h3, h4, -, -, -, h8⟩ :=
    (import_populates_primary_only simClient simFromContainer
      (declared "uni/tn-a/cif-web" (fun _ => none)) ⟨remoteWithRelation none, []⟩).2.2.2
      (some remoteWeb) rfl rfl (by decide)
  obtain ⟨filled2, g1, -, -, -, -, g6, -, -⟩ :=
    (import_populates_primary_only ackOnlyClient
      (fun _ => { remoteWeb with Attributes := { remoteWeb.Attributes with NameAlias := "{}" } })
      (declared "uni/tn-a/cif-web" (fun _ => none)) ⟨(), []⟩).2.2.2
      () rfl rfl (by decide)
  exact ⟨⟨filled, h1, h2, h3.trans (by decide), h4.trans (by decide), h8⟩,
    ⟨filled2, g1, g6.trans (by decide)⟩⟩

/-- C8 fails as stated: the remote holds `uni/tn-a/cif-web` with a relation to
`uni/tn-b/brc-old` and no call fails, yet Import issues no relation read and the
declared state it returns has no `relation_vz_rs_if`. -/
theorem import_relation_counterexample :
    (remoteWithRelation none).rels "uni/tn-a/cif-web" = some "uni/tn-b/brc-old" ∧
    (resourceAciImportedContractImport simClient simFromContainer
      (declared "uni/tn-a/cif-web" (fun _ => none)) ⟨remoteWithRelation none, []⟩).2.trace
        = [Call.Get "uni/tn-a/cif-web"] ∧
    ((resourceAciImportedContractImport simClient simFromContainer
      (declared "uni/tn-a/cif-web" (fun _ => none)) ⟨remoteWithRelation none, []⟩).1.toOption.map
        (fun ds => ds.map (fun x => x.attrs "relation_vz_rs_if"))) = some [none] := by
  refine ⟨by decide, ?_, ?_⟩
  · simp [resourceAciImportedContractImport, getRemoteImportedContract, callGet, simClient,
      remoteWithRelation, simFromContainer, remoteWeb, declared, ResourceData.Id]
  · simp [resourceAciImportedContractImport, getRemoteImportedContract, callGet, simClient,
      remoteWithRelation, simFromContainer, remoteWeb, declared, ResourceData.Id,
      setImportedContractAttributes, ResourceData.Set, ResourceData.SetId, Except.toOption]

end ImportTheorems

/-! ### Firmware group data source -/

section FirmwareGroupTheorems

variable {σ κ φ : Type}

/-- C10: the firmware group data source looks up the DN "uni/fabric/fwgrp-" + name:
when `getRemoteFirmwareGroup` at that DN returns an error, Read returns that
error, leaves the declared state as it was and the world as the lookup left it;
and two lookup helpers that agree at that DN give the same Read, so no other DN
is consulted. -/
theorem datasource_firmware_group_read (client : Client σ κ)
    (getRemoteFirmwareGroup :
      Client σ κ → String → World σ → Except String φ × World σ)
    (setFirmwareGroupAttributes : φ → ResourceData → ResourceData)
    (d : ResourceData) (w : World σ) :
    (∀ e w1, getRemoteFirmwareGroup client ("uni/fabric/fwgrp-" ++ d.Get "name") w
        = (.error e, w1) →
      dataSourceAciFirmwareGroupRead client getRemoteFirmwareGroup
        setFirmwareGroupAttributes d w = ⟨some e, d, w1⟩) ∧
    (∀ other : Client σ κ → String → World σ → Except String φ × World σ,
      other client ("uni/fabric/fwgrp-" ++ d.Get "name") w
        = getRemoteFirmwareGroup client ("uni/fabric/fwgrp-" ++ d.Get "name") w →
      dataSourceAciFirmwareGroupRead client other setFirmwareGroupAttributes d w
        = dataSourceAciFirmwareGroupRead client getRemoteFirmwareGroup
            setFirmwareGroupAttributes d w) := by
  have hdn : "uni/" ++ ("fabric/fwgrp-" ++ d.Get "name")
      = "uni/fabric/fwgrp-" ++ d.Get "name" := by
    rw [← String.append_assoc]; rfl
  constructor
  · intro e w1 h
    simp [dataSourceAciFirmwareGroupRead, hdn, h]
  · intro other h
    simp [dataSourceAciFirmwareGroupRead, hdn, h]

/-- Witness for C10: with name `fw1` and a lookup helper that fails with the DN it
was given, Read returns "uni/fabric/fwgrp-fw1" and leaves the declared state as
it was. -/
theorem datasource_firmware_group_read_witness :
    dataSourceAciFirmwareGroupRead simClient
      (fun _ dn w => ((.error dn : Except String Unit), w)) (fun _ d => d.SetId "touched")
      (declared "" (fun k => if k = "name" then some "fw1" else none)) ⟨emptyRemote, []⟩
    = ⟨some "uni/fabric/fwgrp-fw1",
        declared "" (fun k => if k = "name" then some "fw1" else none), ⟨emptyRemote, []⟩⟩ :=
  (datasource_firmware_group_read simClient
    (fun _ dn w => ((.error dn : Except String Unit), w)) (fun _ d => d.SetId "touched")
    (declared "" (fun k => if k = "name" then some "fw1" else none)) ⟨emptyRemote, []⟩).1
    "uni/fabric/fwgrp-fw1" ⟨emptyRemote, []⟩ rfl

end FirmwareGroupTheorems

/-! ### Identity -/

/-- The last segment is stripped off a DN whose last segment has no `/`. -/
theorem stripLastSegment_append (p s : List Char) (hs : '/' ∉ s) :
    stripLastSegment (p ++ '/' :: s) = p := by
  have hdrop : ∀ (t r : List Char), '/' ∉ t →
      (t ++ '/' :: r).dropWhile (fun ch => ch != '/') = '/' :: r := by
    intro t r ht
    induction t with
    | nil => simp [List.dropWhile]
    | cons a t ih =>
      have ha : a ≠ '/' := fun h => ht (by simp [h])
      have ht2 : '/' ∉ t := fun h => ht (by simp [h])
      have hb : (a != '/') = true := by simp [ha]
      rw [List.cons_append, List.dropWhile_cons, hb]
      simpa using ih ht2
  have hrev : '/' ∉ s.reverse := by simpa using hs
  simp [stripLastSegment, hdrop s.reverse p.reverse hrev]

/-- C5, as amended: for every parentDN and every name that contains no `/`, the
identity that Create and Update build from a declared state with that parent and
name is parentDN + "/" + "cif-" + name, and stripping its last path segment, as
`setImportedContractAttributes` does to fill `tenant_dn`, recovers parentDN. -/
theorem parent_of_built_identity (parentDN name : String) (hname : '/' ∉ name.data)
    (d d2 : ResourceData) (hparent : d.Get "tenant_dn" = parentDN)
    (hd : d.Get "name" = name) :
    (declaredImportedContract d).DistinguishedName = parentDN ++ "/" ++ ("cif-" ++ name) ∧
    GetParentDn (parentDN ++ "/" ++ ("cif-" ++ name)) = parentDN ∧
    (setImportedContractAttributes (declaredImportedContract d) d2).Get "tenant_dn"
      = parentDN := by
  have hid : (declaredImportedContract d).DistinguishedName
      = parentDN ++ "/" ++ ("cif-" ++ name) := by
    simp [declaredImportedContract, NewImportedContract, hparent, hd]
  have hstrip : GetParentDn (parentDN ++ "/" ++ ("cif-" ++ name)) = parentDN := by
    have hs : '/' ∉ ("cif-" ++ name).data := by
      simp only [String.data_append, List.mem_append, not_or]
      exact ⟨by decide, hname⟩
    have hdata : (parentDN ++ "/" ++ ("cif-" ++ name)).data
        = parentDN.data ++ '/' :: ("cif-" ++ name).data := by
      simp [String.data_append]
    simp only [GetParentDn, hdata, stripLastSegment_append _ _ hs]
  refine ⟨hid, hstrip, ?_⟩
  simp [setImportedContractAttributes, ResourceData.Set, ResourceData.SetId,
    ResourceData.Get, hid, hstrip]

/-- Witness for C5 as amended: parent `uni/tn-a`, name `web`. -/
theorem parent_of_built_identity_witness :
    '/' ∉ "web".data ∧
    (declaredImportedContract declaredWeb).DistinguishedName
      = "uni/tn-a" ++ "/" ++ ("cif-" ++ "web") ∧
    GetParentDn ("uni/tn-a" ++ "/" ++ ("cif-" ++ "web")) = "uni/tn-a" ∧
    (setImportedContractAttributes (declaredImportedContract declaredWeb)
      (declared "" (fun _ => none))).Get "tenant_dn" = "uni/tn-a" :=
  ⟨by decide, parent_of_built_identity "uni/tn-a" "web" (by decide) declaredWeb
    (declared "" (fun _ => none)) (by decide) (by decide)⟩

/-- C5 fails as stated: for parent `uni/tn-a` and the non-empty name `x/y` the
identity is `uni/tn-a/cif-x/y`, and stripping its last path segment gives
`uni/tn-a/cif-x`, not the parent. -/
theorem parent_of_built_identity_counterexample :
    "x/y" ≠ "" ∧
    (NewImportedContract ("cif-" ++ "x/y") "uni/tn-a" ""
      ImportedContractAttributes.zero).DistinguishedName = "uni/tn-a/cif-x/y" ∧
    GetParentDn "uni/tn-a/cif-x/y" = "uni/tn-a/cif-x" ∧
    GetParentDn "uni/tn-a/cif-x/y" ≠ "uni/tn-a" := by
  refine ⟨by decide, by decide, by decide, by decide⟩

end Aci
